import Mathlib

/-!
Verification development for the Screen-Shot-Pro scheduler (src/main.py).

The Python source is shallowly embedded: the task record, the configuration
store operations, the cron-string construction and validation, the scheduler
job table, and the capture lock discipline are translated into executable
Lean definitions, and the specified properties are settled as theorems.
-/

namespace ScreenShotPro

/-- The `ScreenshotTask` dataclass (main.py:36-45).  Python `int` fields are
modelled as `Int`, `bool` as `Bool`, `str` as `String`. -/
structure ScreenshotTask where
  id : String
  url : String
  cron_schedule : String
  output_path : String
  width : Int
  height : Int
  full_page : Bool
  enabled : Bool
deriving DecidableEq, Repr

/-- The dictionary produced by `dataclasses.asdict` on a `ScreenshotTask`
(main.py:47-48): one entry per dataclass field, holding that field's value. -/
structure TaskDict where
  id : String
  url : String
  cron_schedule : String
  output_path : String
  width : Int
  height : Int
  full_page : Bool
  enabled : Bool
deriving DecidableEq, Repr

namespace ScreenshotTask

/-- `ScreenshotTask.to_dict` (main.py:47-48): `asdict(self)`. -/
def to_dict (t : ScreenshotTask) : TaskDict :=
  { id := t.id, url := t.url, cron_schedule := t.cron_schedule,
    output_path := t.output_path, width := t.width, height := t.height,
    full_page := t.full_page, enabled := t.enabled }

/-- `ScreenshotTask.from_dict` (main.py:50-52): `cls(**data)` rebuilds the
dataclass from the keyword arguments stored in the dictionary. -/
def from_dict (d : TaskDict) : ScreenshotTask :=
  { id := d.id, url := d.url, cron_schedule := d.cron_schedule,
    output_path := d.output_path, width := d.width, height := d.height,
    full_page := d.full_page, enabled := d.enabled }

end ScreenshotTask

namespace ConfigManager

/-- `ConfigManager.add_task` (main.py:92-96): appends the task to the stored
task list. -/
def add_task (tasks : List ScreenshotTask) (task : ScreenshotTask) :
    List ScreenshotTask :=
  tasks ++ [task]

/-- `ConfigManager.remove_task` (main.py:98-102): keeps exactly the tasks
whose id differs from `task_id`. -/
def remove_task (tasks : List ScreenshotTask) (task_id : String) :
    List ScreenshotTask :=
  tasks.filter (fun t => t.id != task_id)

/-- `ConfigManager.update_task` (main.py:104-111): scans the list, replaces
the first task whose id matches `task.id`, then stops (`break`); if no id
matches, the list is written back unchanged. -/
def update_task (tasks : List ScreenshotTask) (task : ScreenshotTask) :
    List ScreenshotTask :=
  match tasks with
  | [] => []
  | t :: ts =>
      if t.id == task.id then task :: ts
      else t :: update_task ts task

end ConfigManager

/-- Python whitespace characters recognised by `str.split()` with no
argument. -/
def isPyWhitespace (c : Char) : Bool :=
  c == ' ' || c == '\t' || c == '\n' || c == '\r' || c == '\x0b' || c == '\x0c'

/-- Worker for `pySplit`: walks the characters, accumulating the current
token (in reverse) and emitting it at each whitespace run. -/
def pySplitGo : List Char → List Char → List String
  | [], acc => if acc.isEmpty then [] else [String.mk acc.reverse]
  | c :: cs, acc =>
      if isPyWhitespace c then
        if acc.isEmpty then pySplitGo cs []
        else String.mk acc.reverse :: pySplitGo cs []
      else pySplitGo cs (c :: acc)

/-- Python `str.split()` with no argument, as used on the cron string in
`App.schedule_task` (main.py:937): splits on runs of whitespace and never
returns empty tokens. -/
def pySplit (s : String) : List String := pySplitGo s.data []

/-- Base-10 parse of a token consisting only of digits; `none` on the empty
string or any non-digit character.  This is the integer form accepted for a
single cron field by the external CronTrigger. -/
def parseDecNat (s : String) : Option Nat :=
  if s.data.isEmpty then none
  else if s.data.all Char.isDigit then
    some (s.data.foldl (fun acc c => 10 * acc + (c.toNat - 48)) 0)
  else none

/-- A cron field token is valid for the inclusive range `[lo, hi]` when it is
the wildcard or a base-10 integer within the range. -/
def tokenValid (lo hi : Nat) (tok : String) : Bool :=
  tok == "*" ||
    (match parseDecNat tok with
     | some n => decide (lo ≤ n) && decide (n ≤ hi)
     | none => false)

/-- A syntactically valid 5-field cron expression: `str.split()` yields
exactly five tokens, each the wildcard or an in-range integer (minute 0-59,
hour 0-23, day-of-month 1-31, month 1-12, day-of-week 0-6). -/
def validCron5 (s : String) : Bool :=
  match pySplit s with
  | [mi, h, dom, mon, dow] =>
      tokenValid 0 59 mi && tokenValid 0 23 h && tokenValid 1 31 dom &&
        tokenValid 1 12 mon && tokenValid 0 6 dow
  | _ => false

/-- The choices of the schedule drop-down read by `App.get_cron_schedule`
(main.py:901); `other` stands for any unrecognised value, which falls through
to the final return. -/
inductive ScheduleOption
  | everyMinute
  | everyHour
  | daily
  | weekly
  | custom
  | other
deriving DecidableEq, Repr

/-- `App.get_cron_schedule` (main.py:900-918).  `hourSpin` and `minuteSpin`
model the result of Python `int(...)` on the two spinbox texts: `some n` when
the text parses to `n`, `none` when `int` raises `ValueError`, in which case
the Custom branch returns the sentinel "Invalid".  The parsed hour is reduced
modulo 24 and the minute modulo 60 (Python `%` on a positive modulus is
nonnegative, as is Lean `Int.emod`), and the f-string renders the two numbers
in decimal, here `Int.repr`. -/
def get_cron_schedule (opt : ScheduleOption) (hourSpin minuteSpin : Option Int) :
    String :=
  match opt with
  | ScheduleOption.everyMinute => "* * * * *"
  | ScheduleOption.everyHour => "0 * * * *"
  | ScheduleOption.daily => "0 0 * * *"
  | ScheduleOption.weekly => "0 0 * * 0"
  | ScheduleOption.custom =>
      match hourSpin, minuteSpin with
      | some h, some m =>
          Int.repr (m % 60) ++ " " ++ Int.repr (h % 24) ++ " * * *"
      | _, _ => "Invalid"
  | ScheduleOption.other => "0 * * * *"

/-- The `BackgroundScheduler` job table, modelled as the association of job
id to the cron expression of that job's trigger (main.py:959-971). -/
abbrev JobTable := List (String × String)

namespace Scheduler

/-- `BackgroundScheduler.add_job` with `replace_existing=True`
(main.py:959-971): replaces the job already registered under the id, or
appends a new entry. -/
def add_job (jobs : JobTable) (jobId cron : String) : JobTable :=
  if jobs.any (fun j => j.1 == jobId) then
    jobs.map (fun j => if j.1 == jobId then (jobId, cron) else j)
  else jobs ++ [(jobId, cron)]

end Scheduler

/-- Field validation done by the external APScheduler `CronTrigger`
constructor, which `App.schedule_task` hands the five tokens to
(main.py:961-967).  Modelled from APScheduler's behavior restricted to the
token forms this program produces: each field independently must be the
wildcard or an integer in its range (minute 0-59, hour 0-23, day 1-31, month
1-12, day_of_week 0-6); the constructor performs no cross-field reachability
analysis, so calendar-impossible combinations such as day 31 with month 2 are
accepted. -/
def cronTriggerOk (mi h dom mon dow : String) : Bool :=
  tokenValid 0 59 mi && tokenValid 0 23 h && tokenValid 1 31 dom &&
    tokenValid 1 12 mon && tokenValid 0 6 dow

namespace App

/-- `App.schedule_task` (main.py:935-974): splits the cron string, raises
`ValueError` unless exactly 5 parts result, builds the `CronTrigger` from the
five fields, and registers the capture job under the task id with
`replace_existing=True`.  Every exception is caught at main.py:973-974 and
only printed, so on any failure the job table is returned unchanged (and the
stored task list is never touched by this function at all). -/
def schedule_task (jobs : JobTable) (task : ScreenshotTask) : JobTable :=
  match pySplit task.cron_schedule with
  | [mi, h, dom, mon, dow] =>
      if cronTriggerOk mi h dom mon dow then
        Scheduler.add_job jobs task.id task.cron_schedule
      else jobs
  | _ => jobs

/-- `App.load_scheduled_tasks` (main.py:748-755): iterates the stored tasks
and calls `schedule_task` on each enabled one (the UI refresh calls are
external). -/
def load_scheduled_tasks (jobs : JobTable) (tasks : List ScreenshotTask) :
    JobTable :=
  tasks.foldl (fun js t => if t.enabled then schedule_task js t else js) jobs

end App

/-- The scheduling-relevant application state: the stored task list of the
`ConfigManager` and the job table of the `BackgroundScheduler`. -/
structure AppState where
  tasks : List ScreenshotTask
  jobs : JobTable
deriving DecidableEq, Repr

namespace App

/-- Application startup (main.py:176-185): the task list is loaded from the
configuration store and every enabled task is scheduled into the fresh
`BackgroundScheduler`. -/
def startup (tasks : List ScreenshotTask) : AppState :=
  { tasks := tasks, jobs := load_scheduled_tasks [] tasks }

/-- `App.remove_task` (main.py:920-923): deletes the task from the
configuration store and then calls `load_scheduled_tasks`, which only
(re-)adds jobs for the remaining enabled tasks; no `scheduler.remove_job`
call exists anywhere, so the removed task's scheduler job is never taken out
of the job table. -/
def remove_task (s : AppState) (task_id : String) : AppState :=
  let tasks := ConfigManager.remove_task s.tasks task_id
  { tasks := tasks, jobs := load_scheduled_tasks s.jobs tasks }

end App

/-- Default output directory used by `App.add_task` when the output path
entry is empty (main.py:880-881); stands for
`str(Path.home() / "Documents" / "Screenshots")`, whose actual value depends
on the external home directory. -/
def defaultOutputPath : String := "/home/user/Documents/Screenshots"

/-- The form inputs read by `App.add_task` (main.py:869-873): the stripped
url entry text, the schedule drop-down state feeding `get_cron_schedule`, the
output path entry, and the already-parsed width/height entries. -/
structure AddTaskInput where
  url : String
  opt : ScheduleOption
  hourSpin : Option Int
  minuteSpin : Option Int
  output_path : String
  width : Int
  height : Int
  full_page : Bool
deriving DecidableEq, Repr

namespace App

/-- `App.add_task` (main.py:869-898): builds the cron string with
`get_cron_schedule`; when the url is empty or the cron is the sentinel
"Invalid" it shows an error and returns without storing anything (`none`);
otherwise it stores a fresh enabled task (id from `uuid4`, passed in as
`newId`) by appending it to the configuration and returns the new list. -/
def add_task (tasks : List ScreenshotTask) (newId : String)
    (inp : AddTaskInput) : Option (List ScreenshotTask) :=
  let cron := get_cron_schedule inp.opt inp.hourSpin inp.minuteSpin
  if inp.url == "" || cron == "Invalid" then none
  else
    let outPath := if inp.output_path == "" then defaultOutputPath
      else inp.output_path
    some (ConfigManager.add_task tasks
      { id := newId, url := inp.url, cron_schedule := cron,
        output_path := outPath, width := inp.width, height := inp.height,
        full_page := inp.full_page, enabled := true })

end App

namespace Lock

/-- `threading.Lock.acquire(blocking=False)` on the shared capture lock
(main.py:944, main.py:991): one atomic operation returning whether the lock
was acquired together with the new lock state (`true` = held); it succeeds
exactly when the lock was free. -/
def acquireNonblocking (held : Bool) : Bool × Bool :=
  if held then (false, true) else (true, true)

/-- `threading.Lock.release` (main.py:957, main.py:1004): releases a held
lock back to free; releasing an unlocked `threading.Lock` raises
`RuntimeError`. -/
def release (held : Bool) : Except String Bool :=
  if held then Except.ok false else Except.error "release unlocked lock"

end Lock

/-- How one run of `App.capture_task` ends (main.py:976-987): `capture`
returned `True`, returned `False`, or the coroutine raised. -/
inductive CaptureOutcome
  | success
  | failure
  | exn
deriving DecidableEq, Repr

/-- What one invocation of the guarded wrapper did. -/
inductive WrapperResult
  | skipped
  | completed (o : CaptureOutcome)
deriving DecidableEq, Repr

/-- The body of `capture_wrapper` inside `App.schedule_task`
(main.py:943-957) and of `capture` inside `App.run_capture`
(main.py:990-1004); both have the identical guard discipline: a non-blocking
acquire of the shared capture lock, an early return when it fails, and
otherwise the capture runs inside `try`/`finally` with
`self.capture._capture_lock.release()` in the `finally`, so the release
happens whether the capture succeeds, fails, or raises.  Returns the final
lock state and what the invocation did. -/
def capture_wrapper (held : Bool) (outcome : CaptureOutcome) :
    Bool × WrapperResult :=
  match Lock.acquireNonblocking held with
  | (false, h2) => (h2, WrapperResult.skipped)
  | (true, _) =>
      match Lock.release true with
      | Except.ok h3 => (h3, WrapperResult.completed outcome)
      | Except.error _ => (true, WrapperResult.completed outcome)

/-- The acquire performed for a given task by the thread spawned in
`App.run_capture` (main.py:989-1007): it takes `self.capture._capture_lock`,
the one lock owned by the single `ScreenshotCapture` instance
(main.py:114-116, main.py:177), irrespective of which task the capture is
for — the task value plays no part in selecting the lock. -/
def run_capture_acquire (sharedHeld : Bool) (task : ScreenshotTask) :
    Bool × Bool :=
  Lock.acquireNonblocking sharedHeld

/-- The two contenders of the race: the thread started by `App.run_capture`
(main.py:1006-1007) and the `BackgroundScheduler` worker executing
`capture_wrapper` on a dispatch tick (main.py:959). -/
inductive ThreadId
  | runNow
  | tick
deriving DecidableEq, Repr

/-- Program counter of one contender: about to execute the non-blocking
acquire, inside the capture with the lock held, or finished. -/
inductive Pc
  | start
  | critical
  | done
deriving DecidableEq, Repr

/-- The observable outcome of one contender's attempt. -/
inductive AttemptOutcome
  | pending
  | acquired
  | skippedAlreadyRunning
deriving DecidableEq, Repr

/-- The shared capture lock together with both contenders' positions and
recorded outcomes. -/
structure RaceState where
  lockHeld : Bool
  pcRun : Pc
  outRun : AttemptOutcome
  pcTick : Pc
  outTick : AttemptOutcome
deriving DecidableEq, Repr

/-- One atomic step of the named thread.  At `start` it executes
`acquire(blocking=False)` (main.py:944, main.py:991): if the lock is held it
records the skipped-already-running outcome (main.py:946, main.py:993) and
returns; otherwise it takes the lock and enters the capture.  At `critical`
the capture finishes and the `finally` releases the lock (main.py:956-957,
main.py:1003-1004).  A finished thread does nothing. -/
def step (s : RaceState) (t : ThreadId) : RaceState :=
  match t with
  | ThreadId.runNow =>
      match s.pcRun with
      | Pc.start =>
          if s.lockHeld then
            { s with pcRun := Pc.done,
                     outRun := AttemptOutcome.skippedAlreadyRunning }
          else
            { s with lockHeld := true, pcRun := Pc.critical,
                     outRun := AttemptOutcome.acquired }
      | Pc.critical => { s with lockHeld := false, pcRun := Pc.done }
      | Pc.done => s
  | ThreadId.tick =>
      match s.pcTick with
      | Pc.start =>
          if s.lockHeld then
            { s with pcTick := Pc.done,
                     outTick := AttemptOutcome.skippedAlreadyRunning }
          else
            { s with lockHeld := true, pcTick := Pc.critical,
                     outTick := AttemptOutcome.acquired }
      | Pc.critical => { s with lockHeld := false, pcTick := Pc.done }
      | Pc.done => s

/-- Execute an interleaving: the schedule lists, in order, which thread takes
its next atomic step. -/
def runSched (s : RaceState) (sched : List ThreadId) : RaceState :=
  sched.foldl step s

/-- Both contenders poised to attempt, lock free (guard idle). -/
def initIdle : RaceState :=
  { lockHeld := false, pcRun := Pc.start, outRun := AttemptOutcome.pending,
    pcTick := Pc.start, outTick := AttemptOutcome.pending }

/-- Both contenders poised to attempt while the lock is already held by an
earlier capture that does not finish during the window (guard running). -/
def initRunning : RaceState :=
  { lockHeld := true, pcRun := Pc.start, outRun := AttemptOutcome.pending,
    pcTick := Pc.start, outTick := AttemptOutcome.pending }

/-- A contender holds the guard exactly when it is in its critical section;
the mutual-exclusion invariant: whoever is critical holds the lock, and the
two contenders are never critical together. -/
def MutexInv (s : RaceState) : Prop :=
  (s.pcRun = Pc.critical → s.lockHeld = true) ∧
  (s.pcTick = Pc.critical → s.lockHeld = true) ∧
  ¬(s.pcRun = Pc.critical ∧ s.pcTick = Pc.critical)

instance (s : RaceState) : Decidable (MutexInv s) := by
  unfold MutexInv
  infer_instance

/-- Exactly one of the two attempts acquired the guard and the other
observed skipped-already-running. -/
def ExactlyOneAcquires (s : RaceState) : Prop :=
  (s.outRun = AttemptOutcome.acquired ∧
    s.outTick = AttemptOutcome.skippedAlreadyRunning) ∨
  (s.outRun = AttemptOutcome.skippedAlreadyRunning ∧
    s.outTick = AttemptOutcome.acquired)

instance (s : RaceState) : Decidable (ExactlyOneAcquires s) := by
  unfold ExactlyOneAcquires
  infer_instance

lemma step_preserves_mutexInv (s : RaceState) (t : ThreadId)
    (h : MutexInv s) : MutexInv (step s t) := by
  obtain ⟨h1, h2, h3⟩ := h
  cases t <;> unfold step <;> dsimp only
  · cases hpc : s.pcRun <;> dsimp only
    · by_cases hl : s.lockHeld = true
      · simp only [hl, if_true]
        refine ⟨fun hc => by simp at hc, fun _ => rfl, fun hc => by
          simp at hc⟩
      · simp only [Bool.not_eq_true] at hl
        simp only [hl, Bool.false_eq_true, if_false]
        refine ⟨fun _ => rfl, fun hc => ?_, fun hc => ?_⟩
        · exact absurd (h2 hc) (by simp [hl])
        · exact absurd (h2 hc.2) (by simp [hl])
    · refine ⟨fun hc => by simp at hc, fun hc => ?_, fun hc => by
        simp at hc⟩
      exact absurd ⟨hpc, hc⟩ h3
    · exact ⟨h1, h2, h3⟩
  · cases hpc : s.pcTick <;> dsimp only
    · by_cases hl : s.lockHeld = true
      · simp only [hl, if_true]
        refine ⟨fun _ => rfl, fun hc => by simp at hc, fun hc => by
          simp at hc⟩
      · simp only [Bool.not_eq_true] at hl
        simp only [hl, Bool.false_eq_true, if_false]
        refine ⟨fun hc => ?_, fun _ => rfl, fun hc => ?_⟩
        · exact absurd (h1 hc) (by simp [hl])
        · exact absurd (h1 hc.1) (by simp [hl])
    · refine ⟨fun hc => ?_, fun hc => by simp at hc, fun hc => by
        simp at hc⟩
      exact absurd ⟨hc, hpc⟩ h3
    · exact ⟨h1, h2, h3⟩

lemma runSched_preserves_mutexInv (s : RaceState) (sched : List ThreadId)
    (h : MutexInv s) : MutexInv (runSched s sched) := by
  induction sched generalizing s with
  | nil => exact h
  | cons t ts ih =>
      exact ih (step s t) (step_preserves_mutexInv s t h)

lemma step_out_stable (s : RaceState) (t : ThreadId)
    (hA : s.pcRun ≠ Pc.start) (hB : s.pcTick ≠ Pc.start) :
    (step s t).outRun = s.outRun ∧ (step s t).outTick = s.outTick ∧
      (step s t).pcRun ≠ Pc.start ∧ (step s t).pcTick ≠ Pc.start := by
  cases t <;> unfold step <;> dsimp only
  · cases hpc : s.pcRun <;> dsimp only
    · exact absurd hpc hA
    · exact ⟨rfl, rfl, by simp, hB⟩
    · exact ⟨rfl, rfl, by simp [hpc], hB⟩
  · cases hpc : s.pcTick <;> dsimp only
    · exact absurd hpc hB
    · exact ⟨rfl, rfl, hA, by simp⟩
    · exact ⟨rfl, rfl, hA, by simp [hpc]⟩

lemma runSched_out_stable (s : RaceState) (sched : List ThreadId)
    (hA : s.pcRun ≠ Pc.start) (hB : s.pcTick ≠ Pc.start) :
    (runSched s sched).outRun = s.outRun ∧
      (runSched s sched).outTick = s.outTick := by
  induction sched generalizing s with
  | nil => exact ⟨rfl, rfl⟩
  | cons t ts ih =>
      obtain ⟨e1, e2, p1, p2⟩ := step_out_stable s t hA hB
      obtain ⟨f1, f2⟩ := ih (step s t) p1 p2
      exact ⟨f1.trans e1, f2.trans e2⟩

/-- A concrete task used to instantiate the theorems. -/
def taskA0 : ScreenshotTask :=
  { id := "task-a", url := "https://a.example", cron_schedule := "0 * * * *",
    output_path := "/shots", width := 1920, height := 1080,
    full_page := true, enabled := true }

/-- `taskA0` with an edited url: the replacement value handed to
`update_task`. -/
def taskA1 : ScreenshotTask :=
  { taskA0 with url := "https://new.example" }

/-- A second concrete task, with an id distinct from `taskA0`. -/
def taskB0 : ScreenshotTask :=
  { id := "task-b", url := "https://b.example", cron_schedule := "0 0 * * *",
    output_path := "/shots", width := 1280, height := 720,
    full_page := false, enabled := true }

/-- A concrete stored task whose cron string has only three fields. -/
def badCountTask : ScreenshotTask :=
  { id := "task-bad", url := "https://bad.example", cron_schedule := "1 2 3",
    output_path := "/shots", width := 800, height := 600,
    full_page := false, enabled := true }

/-- A concrete task whose cron spec "0 0 31 2 *" can never match a calendar
date (there is no February 31st). -/
def feb31Task : ScreenshotTask :=
  { id := "task-feb31", url := "https://feb.example",
    cron_schedule := "0 0 31 2 *", output_path := "/shots", width := 1920,
    height := 1080, full_page := true, enabled := true }

set_option maxHeartbeats 1600000 in
lemma customCronValid : ∀ nm : Nat, nm < 60 → ∀ nh : Nat, nh < 24 →
    validCron5 (Nat.repr nm ++ " " ++ Nat.repr nh ++ " * * *") = true := by
  decide

lemma int_emod_repr_lt (m k : Int) (kn : Nat) (hk : k = (kn : Int))
    (hkpos : 0 < kn) :
    ∃ n : Nat, n < kn ∧ Int.repr (m % k) = Nat.repr n := by
  have hk0 : k ≠ 0 := by
    rw [hk]
    exact_mod_cast hkpos.ne.symm
  have h0 : 0 ≤ m % k := Int.emod_nonneg m hk0
  have hlt : m % k < k := Int.emod_lt_of_pos m (by rw [hk]; exact_mod_cast hkpos)
  refine ⟨(m % k).toNat, by omega, ?_⟩
  have hcast : (((m % k).toNat : Nat) : Int) = m % k := Int.toNat_of_nonneg h0
  rw [← hcast]
  rfl

lemma validCron5_length (s : String) (h : validCron5 s = true) :
    (pySplit s).length = 5 := by
  unfold validCron5 at h
  rcases hl : pySplit s with _ | ⟨a, _ | ⟨b, _ | ⟨c, _ | ⟨d, _ | ⟨e, _ | ⟨f, r⟩⟩⟩⟩⟩⟩ <;>
    rw [hl] at h <;> simp_all

lemma get_cron_schedule_valid_aux (opt : ScheduleOption) (hs ms : Option Int) :
    get_cron_schedule opt hs ms = "Invalid" ∨
      validCron5 (get_cron_schedule opt hs ms) = true := by
  cases opt
  case everyMinute => exact Or.inr (by show validCron5 "* * * * *" = true; decide)
  case everyHour => exact Or.inr (by show validCron5 "0 * * * *" = true; decide)
  case daily => exact Or.inr (by show validCron5 "0 0 * * *" = true; decide)
  case weekly => exact Or.inr (by show validCron5 "0 0 * * 0" = true; decide)
  case other => exact Or.inr (by show validCron5 "0 * * * *" = true; decide)
  case custom =>
    cases hs with
    | none => cases ms <;> exact Or.inl rfl
    | some h =>
        cases ms with
        | none => exact Or.inl rfl
        | some m =>
            right
            show validCron5
              (Int.repr (m % 60) ++ " " ++ Int.repr (h % 24) ++ " * * *") = true
            obtain ⟨nm, hnm, em⟩ :=
              int_emod_repr_lt m 60 60 (by norm_num) (by norm_num)
            obtain ⟨nh, hnh, eh⟩ :=
              int_emod_repr_lt h 24 24 (by norm_num) (by norm_num)
            rw [em, eh]
            exact customCronValid nm hnm nh hnh

lemma schedule_task_no_5_fields (jobs : JobTable) (t : ScreenshotTask)
    (h : (pySplit t.cron_schedule).length ≠ 5) :
    App.schedule_task jobs t = jobs := by
  unfold App.schedule_task
  rcases hl : pySplit t.cron_schedule with _ | ⟨a, _ | ⟨b, _ | ⟨c, _ | ⟨d, _ | ⟨e, _ | ⟨f, r⟩⟩⟩⟩⟩⟩ <;>
    rw [hl] at h <;> simp_all

lemma update_task_not_found (tasks : List ScreenshotTask)
    (task : ScreenshotTask) :
    (∀ t ∈ tasks, t.id ≠ task.id) →
    ConfigManager.update_task tasks task = tasks := by
  induction tasks with
  | nil => intro _; rfl
  | cons t ts ih =>
      intro h
      have hne : (t.id == task.id) = false := by
        simpa using h t (List.mem_cons_self t ts)
      simp only [ConfigManager.update_task, hne, Bool.false_eq_true, if_false]
      rw [ih (fun u hu => h u (List.mem_cons_of_mem t hu))]

lemma update_task_found (pre post : List ScreenshotTask)
    (oldTask task : ScreenshotTask) :
    (∀ t ∈ pre, t.id ≠ task.id) → oldTask.id = task.id →
    ConfigManager.update_task (pre ++ oldTask :: post) task =
      pre ++ task :: post := by
  induction pre with
  | nil =>
      intro _ holdTask
      simp [ConfigManager.update_task, holdTask]
  | cons t ts ih =>
      intro h holdTask
      have hne : (t.id == task.id) = false := by
        simpa using h t (List.mem_cons_self t ts)
      simp only [List.cons_append, ConfigManager.update_task, hne,
        Bool.false_eq_true, if_false, List.append_eq]
      rw [ih (fun u hu => h u (List.mem_cons_of_mem t hu)) holdTask]

end ScreenShotPro

namespace ScreenShotPro

/-- Claim C9: serializing a `ScreenshotTask` with `to_dict` and rebuilding it
with `from_dict` is an identity round-trip, so tasks survive the save/load
cycle through the configuration store unchanged. -/
theorem to_dict_from_dict_roundtrip (t : ScreenshotTask) :
    ScreenshotTask.from_dict (ScreenshotTask.to_dict t) = t := by
  cases t
  rfl

/-- Claim C1 is false as stated: for a job whose guard is already in the
running state (held by an earlier capture that does not finish during the
window), a concurrent RunNow attempt and a concurrent dispatch-tick attempt
both observe skipped-already-running — neither transitions the guard to
running, so it is not the case that exactly one of the two does. -/
theorem race_from_running_both_skip :
    ¬ ExactlyOneAcquires
        (runSched initRunning [ThreadId.runNow, ThreadId.tick]) ∧
    (runSched initRunning [ThreadId.runNow, ThreadId.tick]).outRun =
      AttemptOutcome.skippedAlreadyRunning ∧
    (runSched initRunning [ThreadId.runNow, ThreadId.tick]).outTick =
      AttemptOutcome.skippedAlreadyRunning := by
  decide

/-- Claim C1 (amended): when the guard is idle and the manual RunNow attempt
and the scheduled dispatch-tick attempt overlap (both execute their
non-blocking acquire before either could finish a capture), exactly one of
the two transitions the guard to running and the other observes
skipped-already-running; and from any state satisfying the mutual-exclusion
invariant — guard idle or already running — no interleaving ever reaches a
state in which both contenders hold the guard simultaneously. -/
theorem run_now_tick_mutual_exclusion (sched rest : List ThreadId)
    (hconc : sched = ThreadId.runNow :: ThreadId.tick :: rest ∨
             sched = ThreadId.tick :: ThreadId.runNow :: rest) :
    ExactlyOneAcquires (runSched initIdle sched) ∧
    (∀ (s0 : RaceState) (l : List ThreadId), MutexInv s0 →
      ¬((runSched s0 l).pcRun = Pc.critical ∧
        (runSched s0 l).pcTick = Pc.critical)) := by
  constructor
  · rcases hconc with h | h <;> subst h
    · have h2 : runSched initIdle (ThreadId.runNow :: ThreadId.tick :: rest) =
          runSched (step (step initIdle ThreadId.runNow) ThreadId.tick)
            rest := rfl
      rw [h2]
      obtain ⟨e1, e2⟩ :=
        runSched_out_stable (step (step initIdle ThreadId.runNow) ThreadId.tick)
          rest (by decide) (by decide)
      exact Or.inl ⟨e1.trans (by decide), e2.trans (by decide)⟩
    · have h2 : runSched initIdle (ThreadId.tick :: ThreadId.runNow :: rest) =
          runSched (step (step initIdle ThreadId.tick) ThreadId.runNow)
            rest := rfl
      rw [h2]
      obtain ⟨e1, e2⟩ :=
        runSched_out_stable (step (step initIdle ThreadId.tick) ThreadId.runNow)
          rest (by decide) (by decide)
      exact Or.inr ⟨e1.trans (by decide), e2.trans (by decide)⟩
  · intro s0 l h0
    exact (runSched_preserves_mutexInv s0 l h0).2.2

/-- Witness for the C1 theorem at the concrete overlapping schedule in which
the RunNow thread attempts first and the tick thread second. -/
theorem run_now_tick_mutual_exclusion_witness :
    ExactlyOneAcquires (runSched initIdle [ThreadId.runNow, ThreadId.tick]) ∧
    (∀ (s0 : RaceState) (l : List ThreadId), MutexInv s0 →
      ¬((runSched s0 l).pcRun = Pc.critical ∧
        (runSched s0 l).pcTick = Pc.critical)) :=
  run_now_tick_mutual_exclusion [ThreadId.runNow, ThreadId.tick] []
    (Or.inl rfl)

/-- Claim C2 is false as stated: the code keeps one shared capture lock for
all tasks, so after a capture of `taskA0` acquires the guard, the acquire
attempt for the distinct task `taskB0` fails instead of finding an
independent, unchanged guard of its own. -/
theorem shared_lock_not_per_task :
    taskA0.id ≠ taskB0.id ∧
    (run_capture_acquire false taskA0).1 = true ∧
    (run_capture_acquire (run_capture_acquire false taskA0).2 taskB0).1 =
      false := by
  decide

/-- Claim C2 (amended): `run_capture` guards every task with the single
`_capture_lock` of the one `ScreenshotCapture` instance, so while a capture
of task `a` holds it, an acquire attempt for a distinct task `b` fails just
as an attempt for `a` itself does: serialization is global across tasks —
which still prevents any task from overlapping itself. -/
theorem run_capture_global_serialization (a b : ScreenshotTask)
    (hab : a.id ≠ b.id) :
    (run_capture_acquire (run_capture_acquire false a).2 b).1 = false ∧
    (run_capture_acquire (run_capture_acquire false a).2 a).1 = false :=
  ⟨rfl, rfl⟩

/-- Witness for the C2 theorem at the two concrete distinct tasks. -/
theorem run_capture_global_serialization_witness :
    taskA0.id ≠ taskB0.id ∧
    ((run_capture_acquire (run_capture_acquire false taskA0).2 taskB0).1 =
        false ∧
      (run_capture_acquire (run_capture_acquire false taskA0).2 taskA0).1 =
        false) :=
  ⟨by decide, run_capture_global_serialization taskA0 taskB0 (by decide)⟩

/-- Claim C3 is false as stated: a task whose cron string is malformed
(wrong field count, here "1 2 3") can be present in the stored registry — at
startup the scheduling failure is caught and only printed, no ParseError is
surfaced and the task is not removed, though no job is scheduled. -/
theorem malformed_cron_stays_in_registry :
    (App.startup [badCountTask]).tasks = [badCountTask] ∧
    (App.startup [badCountTask]).jobs = [] := by
  decide

/-- Claim C3 (amended): the repository's own cron validation is only the
5-field count check in `schedule_task`: a cron string that does not split
into exactly 5 fields schedules no job, the failure is caught (nothing is
raised to the caller) and the stored task list is untouched, so a malformed
task already in the store stays there; at creation time `add_task` stores a
task only when the url is nonempty and the generated cron is not the
sentinel "Invalid" — when the Custom spinboxes fail to parse, the sentinel
is produced, no task is stored and no job is scheduled.  Field-content
validation beyond the count is delegated to the external CronTrigger. -/
theorem malformed_cron_handling (jobs : JobTable) (t : ScreenshotTask)
    (h : (pySplit t.cron_schedule).length ≠ 5) :
    App.schedule_task jobs t = jobs ∧
    (∀ (tasks : List ScreenshotTask) (newId : String) (inp : AddTaskInput),
        get_cron_schedule inp.opt inp.hourSpin inp.minuteSpin = "Invalid" →
        App.add_task tasks newId inp = none) := by
  refine ⟨schedule_task_no_5_fields jobs t h, ?_⟩
  intro tasks newId inp hinv
  simp [App.add_task, hinv]

/-- Witness for the C3 theorem at the concrete malformed stored task. -/
theorem malformed_cron_handling_witness :
    (pySplit badCountTask.cron_schedule).length ≠ 5 ∧
    (App.schedule_task [] badCountTask = [] ∧
      (∀ (tasks : List ScreenshotTask) (newId : String) (inp : AddTaskInput),
        get_cron_schedule inp.opt inp.hourSpin inp.minuteSpin = "Invalid" →
        App.add_task tasks newId inp = none)) :=
  ⟨by decide, malformed_cron_handling [] badCountTask (by decide)⟩

/-- Claim C4 exposes a code bug: `App.remove_task` deletes the task from the
stored list (leaving every other task's record unchanged), but it never
calls `scheduler.remove_job`, and `load_scheduled_tasks` only re-adds jobs
for the remaining tasks — so the removed task's scheduler job stays
registered and keeps being dispatched on its cron.  Evaluated at the failing
input: after removing the only task, the store is empty while the removed
task's job is still in the scheduler; with a second task present, that
task's record survives unchanged. -/
theorem remove_task_leaves_scheduler_job :
    (App.remove_task (App.startup [taskA0]) taskA0.id).tasks = [] ∧
    (App.remove_task (App.startup [taskA0]) taskA0.id).jobs =
      [(taskA0.id, taskA0.cron_schedule)] ∧
    (App.remove_task (App.startup [taskA0, taskB0]) taskA0.id).tasks =
      [taskB0] := by
  decide

/-- Claim C5 is false as stated: `update_task` does not insert — upserting
into a registry holding no task of the given id leaves the registry
unchanged (here empty), with no task carrying the new values. -/
theorem update_task_no_insert :
    ConfigManager.update_task [] taskA0 = [] ∧
    ¬ ∃ t ∈ ConfigManager.update_task [] taskA0, t.id = taskA0.id := by
  refine ⟨rfl, ?_⟩
  simp [ConfigManager.update_task]

/-- Claim C5 (amended): `update_task` is replace-only: when no stored task
has the given id the registry is returned unchanged (nothing is inserted);
when some task has the id, the first such task is replaced by the new values
and every other record is kept in place. -/
theorem update_task_replace_only (tasks pre post : List ScreenshotTask)
    (oldTask task : ScreenshotTask)
    (hnone : ∀ t ∈ tasks, t.id ≠ task.id)
    (hpre : ∀ t ∈ pre, t.id ≠ task.id)
    (holdTask : oldTask.id = task.id) :
    ConfigManager.update_task tasks task = tasks ∧
    ConfigManager.update_task (pre ++ oldTask :: post) task =
      pre ++ task :: post :=
  ⟨update_task_not_found tasks task hnone,
    update_task_found pre post oldTask task hpre holdTask⟩

/-- Witness for the C5 theorem: replacing `taskA0` by its edited version
`taskA1` behind the unrelated `taskB0`, and updating in a registry that does
not hold the id. -/
theorem update_task_replace_only_witness :
    ConfigManager.update_task [taskB0] taskA1 = [taskB0] ∧
    ConfigManager.update_task ([taskB0] ++ taskA0 :: []) taskA1 =
      [taskB0] ++ taskA1 :: [] :=
  update_task_replace_only [taskB0] [taskB0] [] taskA0 taskA1
    (by decide) (by decide) (by decide)

/-- Claim C6: every capture invocation that acquires the guard releases it
when the guarded action completes — whether the capture returns success,
returns failure, or raises — and a subsequent acquire attempt on the guard
succeeds. -/
theorem capture_wrapper_releases (o : CaptureOutcome) :
    (capture_wrapper false o).1 = false ∧
    (capture_wrapper false o).2 = WrapperResult.completed o ∧
    (Lock.acquireNonblocking (capture_wrapper false o).1).1 = true := by
  cases o <;> exact ⟨rfl, rfl, rfl⟩

/-- Claim C7 is false as stated: releasing the capture lock while it is
already idle is not a harmless no-op — `threading.Lock.release` raises
`RuntimeError` on an unlocked lock. -/
theorem release_idle_raises :
    Lock.release false = Except.error "release unlocked lock" ∧
    Lock.release false ≠ Except.ok false := by
  refine ⟨rfl, fun h => ?_⟩
  simp [Lock.release] at h

/-- Claim C7 (amended): release on a held lock returns it to idle, but
release on an idle lock raises instead of being tolerated; the code never
exercises that error path, because both capture wrappers return before the
`try`/`finally` when the non-blocking acquire fails, so their release only
ever runs on a lock they hold. -/
theorem release_spec :
    Lock.release true = Except.ok false ∧
    Lock.release false = Except.error "release unlocked lock" ∧
    (∀ o : CaptureOutcome, (capture_wrapper true o).2 = WrapperResult.skipped) :=
  ⟨rfl, rfl, fun _ => rfl⟩

/-- Claim C8 is false as stated: scheduling the calendar-impossible spec
"0 0 31 2 *" succeeds — it passes the 5-field check, the CronTrigger accepts
day 31 and month 2 independently, and the job is registered; nothing like an
UnreachableScheduleError is raised at creation/edit time. -/
theorem feb31_schedules_without_error :
    App.schedule_task [] feb31Task = [(feb31Task.id, "0 0 31 2 *")] := by
  decide

/-- Claim C8 (amended): the code computes no next-fire-times of its own and
has no UnreachableScheduleError: "0 0 31 2 *" passes every check performed
at creation/edit time (the repository's field count check and the external
CronTrigger's per-field validation) and a job for the task is registered in
the scheduler whatever jobs already exist — the job simply never fires. -/
theorem feb31_accepted (jobs : JobTable) :
    App.schedule_task jobs feb31Task =
      Scheduler.add_job jobs feb31Task.id feb31Task.cron_schedule := by
  show (if cronTriggerOk "0" "0" "31" "2" "*" = true then
      Scheduler.add_job jobs feb31Task.id feb31Task.cron_schedule
    else jobs) = Scheduler.add_job jobs feb31Task.id feb31Task.cron_schedule
  rw [if_pos (by decide)]

/-- Claim C10: every string produced by `get_cron_schedule` is either the
sentinel "Invalid" or a syntactically valid 5-field cron expression — it
splits on whitespace into exactly 5 tokens, each the wildcard or an in-range
integer, the Custom hour reduced modulo 24 into [0,23] and the minute modulo
60 into [0,59] — and consequently every task stored through `add_task`
(which rejects the sentinel) carries a cron string passing the 5-field count
check of `schedule_task`. -/
theorem get_cron_schedule_valid (opt : ScheduleOption) (hs ms : Option Int) :
    (get_cron_schedule opt hs ms = "Invalid" ∨
      validCron5 (get_cron_schedule opt hs ms) = true) ∧
    (∀ (tasks : List ScreenshotTask) (newId : String) (inp : AddTaskInput)
        (ts2 : List ScreenshotTask),
        App.add_task tasks newId inp = some ts2 →
        ∀ t ∈ ts2, t ∈ tasks ∨ (pySplit t.cron_schedule).length = 5) := by
  refine ⟨get_cron_schedule_valid_aux opt hs ms, ?_⟩
  intro tasks newId inp ts2 hadd t ht
  simp only [App.add_task] at hadd
  split at hadd
  · exact Option.noConfusion hadd
  · rename_i hcond
    have hts2 := Option.some.inj hadd
    rw [← hts2] at ht
    rcases List.mem_append.mp ht with h1 | h2
    · exact Or.inl h1
    · right
      have hne : get_cron_schedule inp.opt inp.hourSpin inp.minuteSpin ≠
          "Invalid" := by
        simp only [Bool.or_eq_true, beq_iff_eq, not_or] at hcond
        exact hcond.2
      rw [List.mem_singleton.mp h2]
      rcases get_cron_schedule_valid_aux inp.opt inp.hourSpin inp.minuteSpin
        with hI | hV
      · exact absurd hI hne
      · exact validCron5_length _ hV

/-- Witness for the C10 theorem at a concrete Custom schedule. -/
theorem get_cron_schedule_valid_witness :
    (get_cron_schedule ScheduleOption.custom (some 30) (some 7) = "Invalid" ∨
      validCron5 (get_cron_schedule ScheduleOption.custom (some 30) (some 7)) =
        true) ∧
    (∀ (tasks : List ScreenshotTask) (newId : String) (inp : AddTaskInput)
        (ts2 : List ScreenshotTask),
        App.add_task tasks newId inp = some ts2 →
        ∀ t ∈ ts2, t ∈ tasks ∨ (pySplit t.cron_schedule).length = 5) :=
  get_cron_schedule_valid ScheduleOption.custom (some 30) (some 7)

end ScreenShotPro
